import Mathlib

/-!
Verification development for the GitHub issue-reader client
(src/github_integration/issue_reader.py).

The file embeds, as executable Lean definitions, the parts of the program the
claims are about:

* the constructor's credential resolution (`reader_init`, from
  `GitHubIssueReader.__init__`);
* the rate-limit backoff computation (`handle_rate_limit`, from
  `GitHubIssueReader._handle_rate_limit`);
* the retry loop of the request primitive (`make_request`, from
  `GitHubIssueReader._make_request`), driven by a scripted list of responses
  standing for the injected transport, with the clock advanced by each sleep;
* the query-parameter builders of `list_issues` and `get_issue_comments`;
* the JSON reshaping layer (`transform_issue` / `transform_issues`, the field
  projections performed by `mcp_get_issue` and `mcp_list_issues`).

Python exceptions are modelled explicitly: `ValueError` (the spec's
`ConfigurationError`), `KeyError` (the spec's `SchemaError` in the reshaping
layer), `TypeError` from subscripting a non-dict value, and the
`requests.HTTPError` raised by `raise_for_status` (the spec's `HttpError`,
carried in `RequestOutcome.httpError`).
-/

/-- Python-level errors raised by the client: `ValueError` from the
constructor, `KeyError` from a missing dict key or header, `TypeError`
from subscripting a value that is not a dict. -/
inductive PyError where
  | valueError (msg : String)
  | keyError (key : String)
  | typeError
deriving DecidableEq

/-- An HTTP response as seen by `_make_request`: a status code, the numeric
rate-limit headers (an association list, absent keys modelling absent
headers), and a parsed JSON body of type `β`. -/
structure HttpResponse (β : Type) where
  status : Nat
  headers : List (String × Int)
  body : β
deriving DecidableEq

/-- What one call of `_handle_rate_limit` does: sleep for a duration, return
without sleeping, or raise a `KeyError` while reading a header. -/
inductive RateLimitResult where
  | sleptFor (d : Int)
  | noSleep
  | raisedKeyError (key : String)
deriving DecidableEq

/-- Embeds `GitHubIssueReader._handle_rate_limit`.  `now` is the value of
`int(time.time())` at the moment of the call.  The Python code reads
`X-RateLimit-Remaining` only after checking membership, but indexes
`X-RateLimit-Reset` unguarded, hence the possible `KeyError` there. -/
def handle_rate_limit {β : Type} (now : Int) (response : HttpResponse β) :
    RateLimitResult :=
  if response.status = 403 then
    match response.headers.lookup "X-RateLimit-Remaining" with
    | some remaining =>
      if remaining = 0 then
        match response.headers.lookup "X-RateLimit-Reset" with
        | some reset_time =>
          let sleep_time := reset_time - now + 1
          if sleep_time > 0 then .sleptFor (min sleep_time 3600) else .noSleep
        | none => .raisedKeyError "X-RateLimit-Reset"
      else .noSleep
    | none => .noSleep
  else .noSleep

/-- Outcome of one call to `_make_request` against a scripted transport. -/
inductive RequestOutcome (β : Type) where
  | success (body : β)
  | httpError (status : Nat) (body : β)
  | keyError (key : String)
  | transportExhausted
deriving DecidableEq

/-- Embeds the `while True` loop of `GitHubIssueReader._make_request`.  The
list argument scripts the successive transport responses; `transportExhausted`
marks the point where the real loop would issue a further request.  Returns
the outcome together with the list of durations passed to `time.sleep`, in
order; the clock advances by each sleep.  `raise_for_status` raises exactly
for status codes in 400..599, and otherwise the loop starts over. -/
def make_request {β : Type} (now : Int) :
    List (HttpResponse β) → RequestOutcome β × List Int
  | [] => (.transportExhausted, [])
  | r :: rest =>
    if r.status = 200 then (.success r.body, [])
    else if r.status = 403 then
      match handle_rate_limit now r with
      | .sleptFor d =>
        let p := make_request (now + d) rest
        (p.1, d :: p.2)
      | .noSleep => make_request now rest
      | .raisedKeyError k => (.keyError k, [])
    else if 400 ≤ r.status ∧ r.status < 600 then (.httpError r.status r.body, [])
    else make_request now rest

/-- A throttle response: HTTP 403 with the rate-limit header pair present,
zero calls remaining, reset at epoch second `reset_time`. -/
def throttle_response {β : Type} (reset_time : Int) (b : β) : HttpResponse β :=
  ⟨403, [("X-RateLimit-Remaining", 0), ("X-RateLimit-Reset", reset_time)], b⟩

/-- A plain HTTP 200 response with body `b`. -/
def ok_response {β : Type} (b : β) : HttpResponse β :=
  ⟨200, [], b⟩

/-- Embeds `self.token = token or os.getenv('GITHUB_TOKEN')`: Python `or`
takes the right operand when the left is `None` or the empty string. -/
def or_token (token env : Option String) : Option String :=
  match token with
  | some s => if s = "" then env else some s
  | none => env

/-- The `ValueError` raised by `GitHubIssueReader.__init__`. -/
def token_required_error : PyError :=
  .valueError "GitHub token is required. Provide it directly or set GITHUB_TOKEN environment variable."

/-- Embeds the credential resolution of `GitHubIssueReader.__init__`:
`token` is the constructor argument (`none` when omitted), `env` the value of
the `GITHUB_TOKEN` environment variable (`none` when unset).  Returns the
resolved token or raises `ValueError` when the result is falsy. -/
def reader_init (token env : Option String) : Except PyError String :=
  match or_token token env with
  | some s => if s = "" then .error token_required_error else .ok s
  | none => .error token_required_error

/-- A transmitted query-parameter value: Python passes strings and ints. -/
inductive ParamValue where
  | str (s : String)
  | int (n : Int)
deriving DecidableEq

/-- The `since` argument of `list_issues`: either a plain string or a
`datetime`, the latter carrying the string `isoformat()` produces for it. -/
inductive SinceValue where
  | ofString (s : String)
  | ofDatetime (iso : String)
deriving DecidableEq

/-- Python truthiness of the `since` argument: a `datetime` is always truthy,
a string is truthy when non-empty. -/
def since_truthy : SinceValue → Bool
  | .ofString s => s ≠ ""
  | .ofDatetime _ => true

/-- The string transmitted for `since`: a `datetime` is normalized with
`isoformat()`, a string passes through unchanged. -/
def since_str : SinceValue → String
  | .ofString s => s
  | .ofDatetime iso => iso

/-- The arguments of `GitHubIssueReader.list_issues` that feed the query
mapping, with the source's defaults. -/
structure ListIssuesArgs where
  state : String := "open"
  labels : Option (List String) := none
  assignee : Option String := none
  creator : Option String := none
  mentioned : Option String := none
  since : Option SinceValue := none
  per_page : Int := 30
  page : Int := 1

/-- Embeds `if labels: params['labels'] = ','.join(labels)`: the key is added
only when the argument is present and the list non-empty. -/
def labels_param (v : Option (List String)) : List (String × ParamValue) :=
  match v with
  | some ls => if ls.isEmpty then [] else [("labels", .str (String.intercalate "," ls))]
  | none => []

/-- Embeds the shared pattern `if x: params[key] = x` used for the
`assignee`, `creator` and `mentioned` string filters: the key is added only
when the argument is present and non-empty. -/
def opt_param (key : String) (v : Option String) : List (String × ParamValue) :=
  match v with
  | some s => if s = "" then [] else [(key, .str s)]
  | none => []

/-- Embeds `if since: ...`: normalize a `datetime` to ISO form, add the key
only when the argument is truthy. -/
def since_param (v : Option SinceValue) : List (String × ParamValue) :=
  match v with
  | some sv => if since_truthy sv then [("since", .str (since_str sv))] else []
  | none => []

/-- The query mapping built by `GitHubIssueReader.list_issues`, in the
insertion order of the Python dict: the three unconditional entries
(`per_page` clamped with `min(per_page, 100)`), then the conditional
filters. -/
def list_issues_params (a : ListIssuesArgs) : List (String × ParamValue) :=
  [("state", .str a.state), ("per_page", .int (min a.per_page 100)), ("page", .int a.page)]
    ++ (labels_param a.labels
    ++ (opt_param "assignee" a.assignee
    ++ (opt_param "creator" a.creator
    ++ (opt_param "mentioned" a.mentioned
    ++ since_param a.since))))

/-- The query mapping built by `GitHubIssueReader.get_issue_comments`:
`per_page` clamped with `min(per_page, 100)`, plus the page index. -/
def get_issue_comments_params (per_page page : Int) : List (String × ParamValue) :=
  [("per_page", .int (min per_page 100)), ("page", .int page)]

/-- JSON values as decoded from a response body. -/
inductive Json where
  | str (s : String)
  | num (n : Int)
  | bool (b : Bool)
  | null
  | arr (elems : List Json)
  | obj (fields : List (String × Json))

/-- Whether a JSON value is a dict. -/
def Json.isObj : Json → Bool
  | .obj _ => true
  | _ => false

/-- Embeds Python subscripting `value[key]` on decoded JSON: a dict yields
the entry or raises `KeyError`; any other value raises `TypeError`. -/
def getField (j : Json) (key : String) : Except PyError Json :=
  match j with
  | .obj fields =>
    match fields.lookup key with
    | some v => .ok v
    | none => .error (.keyError key)
  | _ => .error .typeError

/-- Embeds Python iteration over a decoded JSON value, as a `for` clause
does: a list yields its elements, a string its one-character substrings, a
dict its keys; other values raise `TypeError`. -/
def pyIter (j : Json) : Except PyError (List Json) :=
  match j with
  | .arr xs => .ok xs
  | .str s => .ok (s.data.map (fun c => .str (String.mk [c])))
  | .obj fields => .ok (fields.map (fun kv => .str kv.1))
  | _ => .error .typeError

/-- Embeds a Python list comprehension `[f(x) for x in xs]` over an already
obtained element list: elements are processed left to right and the first
exception aborts the whole comprehension. -/
def mapComprehension (f : Json → Except PyError Json) :
    List Json → Except PyError (List Json)
  | [] => .ok []
  | x :: xs =>
    match f x with
    | .error e => .error e
    | .ok y =>
      match mapComprehension f xs with
      | .error e => .error e
      | .ok ys => .ok (y :: ys)

/-- Embeds the dict literal shared by `mcp_get_issue` and `mcp_list_issues`:
project one raw issue record into the simplified record, evaluating the
fields in the literal's order and propagating the first exception. -/
def transform_issue (issue_data : Json) : Except PyError Json :=
  match getField issue_data "title" with
  | .error e => .error e
  | .ok titlev =>
  match getField issue_data "body" with
  | .error e => .error e
  | .ok bodyv =>
  match getField issue_data "state" with
  | .error e => .error e
  | .ok statev =>
  match getField issue_data "number" with
  | .error e => .error e
  | .ok numberv =>
  match getField issue_data "created_at" with
  | .error e => .error e
  | .ok createdv =>
  match getField issue_data "updated_at" with
  | .error e => .error e
  | .ok updatedv =>
  match getField issue_data "labels" with
  | .error e => .error e
  | .ok labelsv =>
  match pyIter labelsv with
  | .error e => .error e
  | .ok labelElems =>
  match mapComprehension (fun l => getField l "name") labelElems with
  | .error e => .error e
  | .ok labelNames =>
  match getField issue_data "assignees" with
  | .error e => .error e
  | .ok assigneesv =>
  match pyIter assigneesv with
  | .error e => .error e
  | .ok assigneeElems =>
  match mapComprehension (fun l => getField l "login") assigneeElems with
  | .error e => .error e
  | .ok assigneeLogins =>
  match getField issue_data "comments" with
  | .error e => .error e
  | .ok commentsv =>
  match getField issue_data "html_url" with
  | .error e => .error e
  | .ok urlv =>
  .ok (.obj [("title", titlev), ("body", bodyv), ("state", statev),
    ("number", numberv), ("created_at", createdv), ("updated_at", updatedv),
    ("labels", .arr labelNames), ("assignees", .arr assigneeLogins),
    ("comments_count", commentsv), ("url", urlv)])

/-- Embeds the list comprehension of `mcp_list_issues`: the same projection
applied to each raw record of the fetched page, in order. -/
def transform_issues (issues : List Json) : Except PyError (List Json) :=
  mapComprehension transform_issue issues

/-- The raw-record fields the reshaping layer reads at the top level. -/
def expectedIssueFields : List String :=
  ["title", "body", "state", "number", "created_at", "updated_at",
   "labels", "assignees", "comments", "html_url"]

/-- Whether a JSON value is a list of dicts. -/
def isObjArray : Json → Bool
  | .arr xs => xs.all Json.isObj
  | _ => false

/-- A raw record is collection-well-formed when its `labels` and `assignees`
entries, where present, are lists of dicts (as the remote service always
returns them). -/
def goodCollections (fields : List (String × Json)) : Bool :=
  (match fields.lookup "labels" with
   | some v => isObjArray v
   | none => true) &&
  (match fields.lookup "assignees" with
   | some v => isObjArray v
   | none => true)

/-- Python truthiness of an optional string: present and non-empty. -/
def truthy (o : Option String) : Bool :=
  match o with
  | some s => s ≠ ""
  | none => false

/-- A concrete raw issue record (its field list) used in concrete
evaluations: one label named "bug", one assignee with login "alice". -/
def sampleRawIssueFields : List (String × Json) :=
  [("title", .str "T"), ("body", .str "B"), ("state", .str "open"),
   ("number", .num 1), ("created_at", .str "c"), ("updated_at", .str "u"),
   ("labels", .arr [.obj [("name", .str "bug")]]),
   ("assignees", .arr [.obj [("login", .str "alice")]]),
   ("comments", .num 2), ("html_url", .str "h")]

/-- The simplified record the reshaping layer produces for
`sampleRawIssueFields`. -/
def sampleSimplifiedIssue : Json :=
  .obj [("title", .str "T"), ("body", .str "B"), ("state", .str "open"),
    ("number", .num 1), ("created_at", .str "c"), ("updated_at", .str "u"),
    ("labels", .arr [.str "bug"]), ("assignees", .arr [.str "alice"]),
    ("comments_count", .num 2), ("url", .str "h")]

/-! ### Helper lemmas -/

lemma lookup_append_none {α : Type} {k : String} {l₁ : List (String × α)}
    (l₂ : List (String × α)) (h : l₁.lookup k = none) :
    (l₁ ++ l₂).lookup k = l₂.lookup k := by
  induction l₁ with
  | nil => simp
  | cons p t ih =>
    obtain ⟨a, b⟩ := p
    rw [List.lookup_cons] at h
    rw [List.cons_append, List.lookup_cons]
    cases hk : (k == a) with
    | true =>
      rw [hk] at h
      simp at h
    | false =>
      rw [hk] at h
      exact ih h

lemma lookup_append_some {α : Type} {k : String} {l₁ : List (String × α)}
    (l₂ : List (String × α)) {v : α} (h : l₁.lookup k = some v) :
    (l₁ ++ l₂).lookup k = some v := by
  induction l₁ with
  | nil => simp [List.lookup] at h
  | cons p t ih =>
    obtain ⟨a, b⟩ := p
    rw [List.lookup_cons] at h
    rw [List.cons_append, List.lookup_cons]
    cases hk : (k == a) with
    | true =>
      rw [hk] at h
      exact h
    | false =>
      rw [hk] at h
      exact ih h

/-- On a throttle response the backoff helper reduces to the pure
arithmetic of the sleep duration. -/
lemma handle_rate_limit_throttle {β : Type} (now T : Int) (c : β) :
    handle_rate_limit now (throttle_response T c) =
      if T - now + 1 > 0 then .sleptFor (min (T - now + 1) 3600) else .noSleep := by
  simp [handle_rate_limit, throttle_response, List.lookup]

/-- Unfolding of one loop iteration of the request primitive on a throttle
response. -/
lemma make_request_throttle_cons {β : Type} (now T : Int) (c : β)
    (tail : List (HttpResponse β)) :
    make_request now (throttle_response T c :: tail) =
      if T - now + 1 > 0 then
        ((make_request (now + min (T - now + 1) 3600) tail).1,
          min (T - now + 1) 3600 :: (make_request (now + min (T - now + 1) 3600) tail).2)
      else make_request now tail := by
  rw [make_request]
  have h200 : (throttle_response T c).status ≠ 200 := by simp [throttle_response]
  have h403 : (throttle_response T c).status = 403 := rfl
  rw [if_neg h200, if_pos h403, handle_rate_limit_throttle]
  by_cases hpos : T - now + 1 > 0
  · rw [if_pos hpos, if_pos hpos]
  · rw [if_neg hpos, if_neg hpos]

/-! ### Claims about the request primitive -/

/-- C1 counterexample: a 403 response without any rate-limit header is not
the throttle condition, so by the claim `_make_request` should fail with an
`HttpError` of status 403; instead the code retries it and returns the
following 200 body, never producing an `httpError` outcome. -/
theorem plain_403_is_retried_not_raised :
    make_request 0 [HttpResponse.mk 403 [] (0 : Nat), ok_response 7]
        = (.success 7, []) ∧
    ∀ s b sl, make_request 0 [HttpResponse.mk 403 [] (0 : Nat), ok_response 7]
        ≠ (RequestOutcome.httpError s b, sl) := by
  refine ⟨rfl, ?_⟩
  intro s b sl h
  rw [show make_request 0 [HttpResponse.mk 403 [] (0 : Nat), ok_response 7]
      = ((.success 7 : RequestOutcome Nat), ([] : List Int)) from rfl] at h
  simp at h

/-- C1 (amended): for every response whose status is an error status
(400..599) other than 403, `_make_request` raises `HttpError` carrying the
status code and body immediately: no retry (the rest of the transport script
is irrelevant) and zero sleep invocations.  A 403, by contrast, is always
absorbed into the retry loop. -/
theorem make_request_http_error_propagation {β : Type} (now : Int)
    (r : HttpResponse β) (rest : List (HttpResponse β))
    (h200 : r.status ≠ 200) (h403 : r.status ≠ 403)
    (hlo : 400 ≤ r.status) (hhi : r.status < 600) :
    make_request now (r :: rest) = (.httpError r.status r.body, []) := by
  rw [make_request, if_neg h200, if_neg h403, if_pos ⟨hlo, hhi⟩]

/-- C1 witness: a 404 response propagates as an `HttpError` with no retry
and no sleeps. -/
theorem make_request_http_error_propagation_witness :
    make_request 0 [HttpResponse.mk 404 [] (5 : Nat), ok_response 7]
      = (.httpError 404 5, []) :=
  make_request_http_error_propagation 0 (HttpResponse.mk 404 [] 5) [ok_response 7]
    (by decide) (by decide) (by decide) (by decide)

/-- C2: on a throttle response with reset timestamp `T` at current time `t`,
the backoff helper sleeps for exactly `min (T - t + 1) 3600` when
`T - t + 1 > 0`, performs no sleep when `T - t + 1 ≤ 0`, and any duration it
passes to sleep lies in `[0, 3600]`. -/
theorem handle_rate_limit_backoff_arithmetic {β : Type} (t T : Int) (c : β) :
    (T - t + 1 > 0 →
      handle_rate_limit t (throttle_response T c)
        = .sleptFor (min (T - t + 1) 3600)) ∧
    (T - t + 1 ≤ 0 → handle_rate_limit t (throttle_response T c) = .noSleep) ∧
    (∀ d, handle_rate_limit t (throttle_response T c) = .sleptFor d →
      0 ≤ d ∧ d ≤ 3600) := by
  rw [handle_rate_limit_throttle]
  refine ⟨fun h => if_pos h, fun h => if_neg (by omega), ?_⟩
  intro d hd
  by_cases h : T - t + 1 > 0
  · rw [if_pos h] at hd
    injection hd with hd
    omega
  · rw [if_neg h] at hd
    simp at hd

/-- C2 witness: at time 0 with reset timestamp 10 the helper sleeps for
`min 11 3600 = 11` seconds, a duration within `[0, 3600]`. -/
theorem handle_rate_limit_backoff_arithmetic_witness :
    handle_rate_limit 0 (throttle_response 10 (0 : Nat))
      = .sleptFor (min (10 - 0 + 1) 3600) ∧ (0 : Int) ≤ 11 ∧ (11 : Int) ≤ 3600 :=
  ⟨(handle_rate_limit_backoff_arithmetic 0 10 0).1 (by decide),
   (handle_rate_limit_backoff_arithmetic 0 10 (0 : Nat)).2.2 11 (by decide)⟩

/-- C3 counterexample: a single throttle response whose reset timestamp is
already past (reset 0, current time 100) followed by a 200 yields the 200
body with zero sleeps, not the one sleep per throttle response the claim
demands. -/
theorem stale_reset_throttle_sleeps_zero :
    (make_request 100 [throttle_response 0 (0 : Nat), ok_response 7]).1
        = .success 7 ∧
    (make_request 100 [throttle_response 0 (0 : Nat), ok_response 7]).2.length
        ≠ 1 := by
  constructor
  · rfl
  · decide

/-- C3 (amended): for any prefix of throttle responses followed by a 200,
one call returns exactly the 200 body to the caller; one backoff sleep is
performed per throttle response whose computed wait is positive, so when
every reset timestamp is at least the start time plus `3600 · n` (`n` the
number of throttle responses), exactly `n` sleeps are performed. -/
theorem make_request_retry_transparency {β : Type} (resets : List Int)
    (now : Int) (b c : β) :
    ((make_request now
        (resets.map (fun T => throttle_response T c) ++ [ok_response b])).1
      = .success b) ∧
    ((∀ T ∈ resets, now + 3600 * (resets.length : Int) ≤ T) →
      (make_request now
          (resets.map (fun T => throttle_response T c) ++ [ok_response b])).2.length
        = resets.length) := by
  induction resets generalizing now with
  | nil =>
    constructor
    · simp [make_request, ok_response]
    · intro _
      simp [make_request, ok_response]
  | cons T rest ih =>
    rw [List.map_cons, List.cons_append, make_request_throttle_cons]
    by_cases hpos : T - now + 1 > 0
    · rw [if_pos hpos]
      constructor
      · exact (ih (now + min (T - now + 1) 3600)).1
      · intro h
        have hd : min (T - now + 1) 3600 ≤ 3600 := min_le_right _ _
        simp only [List.length_cons]
        rw [(ih (now + min (T - now + 1) 3600)).2]
        intro T' hT'
        have h1 := h T' (List.mem_cons_of_mem _ hT')
        simp only [List.length_cons] at h1
        push_cast at h1 ⊢
        omega
    · rw [if_neg hpos]
      constructor
      · exact (ih now).1
      · intro h
        exfalso
        have h1 := h T (List.mem_cons_self T rest)
        simp only [List.length_cons] at h1
        push_cast at h1
        omega

/-- C3 witness: the spec's instance — two throttle responses (reset far
enough in the future) then a 200 — returns the 200 body with exactly two
sleeps. -/
theorem make_request_retry_transparency_witness :
    (make_request 0
        (([7300, 7300] : List Int).map (fun T => throttle_response T (0 : Nat))
          ++ [ok_response 7])).1 = .success 7 ∧
    (make_request 0
        (([7300, 7300] : List Int).map (fun T => throttle_response T (0 : Nat))
          ++ [ok_response 7])).2.length = 2 :=
  ⟨(make_request_retry_transparency [7300, 7300] 0 7 0).1,
   (make_request_retry_transparency [7300, 7300] 0 7 0).2 (by decide)⟩

/-! ### Lookup lemmas for the query-parameter segments -/

lemma labels_param_lookup_ne (k : String) (v : Option (List String))
    (h : k ≠ "labels") : (labels_param v).lookup k = none := by
  cases v with
  | none => rfl
  | some ls =>
    unfold labels_param
    by_cases he : ls.isEmpty <;> simp [he, List.lookup, beq_false_of_ne h]

lemma opt_param_lookup_ne (k key : String) (v : Option String) (h : k ≠ key) :
    (opt_param key v).lookup k = none := by
  cases v with
  | none => rfl
  | some s =>
    unfold opt_param
    by_cases he : s = "" <;> simp [he, List.lookup, beq_false_of_ne h]

lemma since_param_lookup_ne (k : String) (v : Option SinceValue)
    (h : k ≠ "since") : (since_param v).lookup k = none := by
  cases v with
  | none => rfl
  | some sv =>
    unfold since_param
    by_cases ht : since_truthy sv <;> simp [ht, List.lookup, beq_false_of_ne h]

lemma lookup_base_ne {α : Type} (k : String) (x y z : α)
    (h1 : k ≠ "state") (h2 : k ≠ "per_page") (h3 : k ≠ "page") :
    List.lookup k [("state", x), ("per_page", y), ("page", z)] = none := by
  simp [List.lookup, beq_false_of_ne h1, beq_false_of_ne h2, beq_false_of_ne h3]

/-! ### Claims about construction and query building -/

/-- C4: construction fails with the constructor's `ValueError` (the spec's
`ConfigurationError`) exactly when neither the direct credential nor the
environment fallback is a non-empty string, and succeeds whenever either
source is non-empty. -/
theorem reader_init_credential_requirement (token env : Option String) :
    ((truthy token = true ∨ truthy env = true) →
      ∃ s, reader_init token env = .ok s) ∧
    (truthy token = false → truthy env = false →
      reader_init token env = .error token_required_error) := by
  rcases token with _ | t <;> rcases env with _ | e
  · refine ⟨?_, fun _ _ => rfl⟩
    intro h
    simp [truthy] at h
  · by_cases he : e = ""
    · subst he
      refine ⟨?_, fun _ _ => rfl⟩
      intro h
      simp [truthy] at h
    · refine ⟨fun _ => ⟨e, by simp [reader_init, or_token, he]⟩, fun _ h2 => ?_⟩
      simp [truthy, he] at h2
  · by_cases ht : t = ""
    · subst ht
      refine ⟨?_, fun _ _ => rfl⟩
      intro h
      simp [truthy] at h
    · refine ⟨fun _ => ⟨t, by simp [reader_init, or_token, ht]⟩, fun h1 _ => ?_⟩
      simp [truthy, ht] at h1
  · by_cases ht : t = ""
    · subst ht
      by_cases he : e = ""
      · subst he
        refine ⟨?_, fun _ _ => rfl⟩
        intro h
        simp [truthy] at h
      · refine ⟨fun _ => ⟨e, by simp [reader_init, or_token, he]⟩, fun _ h2 => ?_⟩
        simp [truthy, he] at h2
    · refine ⟨fun _ => ⟨t, by simp [reader_init, or_token, ht]⟩, fun h1 _ => ?_⟩
      simp [truthy, ht] at h1

/-- C4 witness: construction with no credential from either source raises
the `ValueError`, and a direct non-empty credential succeeds. -/
theorem reader_init_credential_requirement_witness :
    reader_init none none = .error token_required_error ∧
    ∃ s, reader_init (some "x") none = .ok s :=
  ⟨(reader_init_credential_requirement none none).2 rfl rfl,
   (reader_init_credential_requirement (some "x") none).1 (Or.inl (by decide))⟩

/-- C5: for both `list_issues` and `get_issue_comments`, the transmitted
`per_page` query value is `min(per_page, 100)`: exactly 100 when the request
exceeds 100, and the input itself when it is at most 100; the builders are
total, so no input is rejected. -/
theorem per_page_clamping (a : ListIssuesArgs) (per_page page : Int) :
    ((list_issues_params a).lookup "per_page" = some (.int (min a.per_page 100))) ∧
    (100 < a.per_page →
      (list_issues_params a).lookup "per_page" = some (.int 100)) ∧
    (a.per_page ≤ 100 →
      (list_issues_params a).lookup "per_page" = some (.int a.per_page)) ∧
    ((get_issue_comments_params per_page page).lookup "per_page"
      = some (.int (min per_page 100))) ∧
    (100 < per_page →
      (get_issue_comments_params per_page page).lookup "per_page"
        = some (.int 100)) ∧
    (per_page ≤ 100 →
      (get_issue_comments_params per_page page).lookup "per_page"
        = some (.int per_page)) := by
  have hbase : (list_issues_params a).lookup "per_page"
      = some (.int (min a.per_page 100)) := by
    unfold list_issues_params
    apply lookup_append_some
    simp [List.lookup]
  have hcomments : (get_issue_comments_params per_page page).lookup "per_page"
      = some (.int (min per_page 100)) := by
    simp [get_issue_comments_params, List.lookup]
  refine ⟨hbase, fun h => ?_, fun h => ?_, hcomments, fun h => ?_, fun h => ?_⟩
  · rw [hbase, min_eq_right (le_of_lt h)]
  · rw [hbase, min_eq_left h]
  · rw [hcomments, min_eq_right (le_of_lt h)]
  · rw [hcomments, min_eq_left h]

/-- C5 witness: a requested page size of 500 is transmitted as 100, one of
30 is transmitted unchanged, for both operations. -/
theorem per_page_clamping_witness :
    (list_issues_params { per_page := 500 }).lookup "per_page"
        = some (.int 100) ∧
    (list_issues_params { per_page := 30 }).lookup "per_page"
        = some (.int 30) ∧
    (get_issue_comments_params 500 1).lookup "per_page" = some (.int 100) ∧
    (get_issue_comments_params 30 1).lookup "per_page" = some (.int 30) :=
  ⟨(per_page_clamping { per_page := 500 } 500 1).2.1 (by decide),
   (per_page_clamping { per_page := 30 } 30 1).2.2.1 (by decide),
   (per_page_clamping { per_page := 500 } 500 1).2.2.2.2.1 (by decide),
   (per_page_clamping { per_page := 30 } 30 1).2.2.2.2.2 (by decide)⟩

/-- C6: each of the optional string filters of `list_issues` — `assignee`,
`creator`, `mentioned` — is absent from the transmitted query mapping when
the argument is omitted or empty, and present with the given value when the
argument is a non-empty string. -/
theorem optional_filter_omission (a : ListIssuesArgs) :
    ((a.assignee = none ∨ a.assignee = some "") →
      (list_issues_params a).lookup "assignee" = none) ∧
    (∀ s, a.assignee = some s → s ≠ "" →
      (list_issues_params a).lookup "assignee" = some (.str s)) ∧
    ((a.creator = none ∨ a.creator = some "") →
      (list_issues_params a).lookup "creator" = none) ∧
    (∀ s, a.creator = some s → s ≠ "" →
      (list_issues_params a).lookup "creator" = some (.str s)) ∧
    ((a.mentioned = none ∨ a.mentioned = some "") →
      (list_issues_params a).lookup "mentioned" = none) ∧
    (∀ s, a.mentioned = some s → s ≠ "" →
      (list_issues_params a).lookup "mentioned" = some (.str s)) := by
  refine ⟨?_, ?_, ?_, ?_, ?_, ?_⟩
  · intro habs
    unfold list_issues_params
    rw [lookup_append_none _
      (lookup_base_ne "assignee" _ _ _ (by decide) (by decide) (by decide))]
    rw [lookup_append_none _ (labels_param_lookup_ne "assignee" a.labels (by decide))]
    have hseg : opt_param "assignee" a.assignee = [] := by
      rcases habs with h | h <;> simp [opt_param, h]
    rw [hseg, List.nil_append]
    rw [lookup_append_none _
      (opt_param_lookup_ne "assignee" "creator" a.creator (by decide))]
    rw [lookup_append_none _
      (opt_param_lookup_ne "assignee" "mentioned" a.mentioned (by decide))]
    exact since_param_lookup_ne "assignee" a.since (by decide)
  · intro s hs hne
    unfold list_issues_params
    rw [lookup_append_none _
      (lookup_base_ne "assignee" _ _ _ (by decide) (by decide) (by decide))]
    rw [lookup_append_none _ (labels_param_lookup_ne "assignee" a.labels (by decide))]
    rw [hs]
    apply lookup_append_some
    simp [opt_param, hne, List.lookup]
  · intro habs
    unfold list_issues_params
    rw [lookup_append_none _
      (lookup_base_ne "creator" _ _ _ (by decide) (by decide) (by decide))]
    rw [lookup_append_none _ (labels_param_lookup_ne "creator" a.labels (by decide))]
    rw [lookup_append_none _
      (opt_param_lookup_ne "creator" "assignee" a.assignee (by decide))]
    have hseg : opt_param "creator" a.creator = [] := by
      rcases habs with h | h <;> simp [opt_param, h]
    rw [hseg, List.nil_append]
    rw [lookup_append_none _
      (opt_param_lookup_ne "creator" "mentioned" a.mentioned (by decide))]
    exact since_param_lookup_ne "creator" a.since (by decide)
  · intro s hs hne
    unfold list_issues_params
    rw [lookup_append_none _
      (lookup_base_ne "creator" _ _ _ (by decide) (by decide) (by decide))]
    rw [lookup_append_none _ (labels_param_lookup_ne "creator" a.labels (by decide))]
    rw [lookup_append_none _
      (opt_param_lookup_ne "creator" "assignee" a.assignee (by decide))]
    rw [hs]
    apply lookup_append_some
    simp [opt_param, hne, List.lookup]
  · intro habs
    unfold list_issues_params
    rw [lookup_append_none _
      (lookup_base_ne "mentioned" _ _ _ (by decide) (by decide) (by decide))]
    rw [lookup_append_none _ (labels_param_lookup_ne "mentioned" a.labels (by decide))]
    rw [lookup_append_none _
      (opt_param_lookup_ne "mentioned" "assignee" a.assignee (by decide))]
    rw [lookup_append_none _
      (opt_param_lookup_ne "mentioned" "creator" a.creator (by decide))]
    have hseg : opt_param "mentioned" a.mentioned = [] := by
      rcases habs with h | h <;> simp [opt_param, h]
    rw [hseg, List.nil_append]
    exact since_param_lookup_ne "mentioned" a.since (by decide)
  · intro s hs hne
    unfold list_issues_params
    rw [lookup_append_none _
      (lookup_base_ne "mentioned" _ _ _ (by decide) (by decide) (by decide))]
    rw [lookup_append_none _ (labels_param_lookup_ne "mentioned" a.labels (by decide))]
    rw [lookup_append_none _
      (opt_param_lookup_ne "mentioned" "assignee" a.assignee (by decide))]
    rw [lookup_append_none _
      (opt_param_lookup_ne "mentioned" "creator" a.creator (by decide))]
    rw [hs]
    apply lookup_append_some
    simp [opt_param, hne, List.lookup]

/-- C6 witness: with `assignee` omitted, `creator` empty, and `mentioned`
set to "bob", the query mapping has no `assignee` key, no `creator` key, and
carries `mentioned=bob`. -/
theorem optional_filter_omission_witness :
    (list_issues_params { creator := some "", mentioned := some "bob" }).lookup
        "assignee" = none ∧
    (list_issues_params { creator := some "", mentioned := some "bob" }).lookup
        "creator" = none ∧
    (list_issues_params { creator := some "", mentioned := some "bob" }).lookup
        "mentioned" = some (.str "bob") :=
  ⟨(optional_filter_omission _).1 (Or.inl rfl),
   (optional_filter_omission _).2.2.1 (Or.inr rfl),
   (optional_filter_omission _).2.2.2.2.2 "bob" rfl (by decide)⟩

/-- C7: whenever `list_issues` is given a non-empty label list, the
transmitted `labels` query value is the comma-separated join of the
names. -/
theorem labels_joined_comma (a : ListIssuesArgs) (ls : List String)
    (h : a.labels = some ls) (hne : ls ≠ []) :
    (list_issues_params a).lookup "labels"
      = some (.str (String.intercalate "," ls)) := by
  unfold list_issues_params
  rw [lookup_append_none _
    (lookup_base_ne "labels" _ _ _ (by decide) (by decide) (by decide))]
  rw [h]
  apply lookup_append_some
  cases ls with
  | nil => exact absurd rfl hne
  | cons x xs => simp [labels_param, List.lookup]

/-- C7 witness: the label list ["bug", "urgent"] is transmitted as the
single query value "bug,urgent". -/
theorem labels_joined_comma_witness :
    (list_issues_params { labels := some ["bug", "urgent"] }).lookup "labels"
        = some (.str (String.intercalate "," ["bug", "urgent"])) ∧
    String.intercalate "," ["bug", "urgent"] = "bug,urgent" :=
  ⟨labels_joined_comma _ ["bug", "urgent"] rfl (by decide), rfl⟩

/-! ### Lemmas about the reshaping comprehensions -/

lemma getField_obj (flds : List (String × Json)) (key : String) :
    getField (.obj flds) key =
      match flds.lookup key with
      | some v => .ok v
      | none => .error (.keyError key) := rfl

lemma mapComprehension_getField_obj (key : String) (xs : List Json)
    (hobj : ∀ x ∈ xs, x.isObj = true) :
    mapComprehension (fun l => getField l key) xs = .error (.keyError key) ∨
    ∃ ys, mapComprehension (fun l => getField l key) xs = .ok ys := by
  induction xs with
  | nil => exact Or.inr ⟨[], rfl⟩
  | cons x t ih =>
    have hx := hobj x (List.mem_cons_self x t)
    cases x with
    | str s => simp [Json.isObj] at hx
    | num n => simp [Json.isObj] at hx
    | bool b => simp [Json.isObj] at hx
    | null => simp [Json.isObj] at hx
    | arr es => simp [Json.isObj] at hx
    | obj flds =>
      rcases hf : flds.lookup key with _ | v
      · left
        have hg : getField (.obj flds) key = .error (.keyError key) := by
          simp [getField, hf]
        simp [mapComprehension, hg]
      · have hg : getField (.obj flds) key = .ok v := by
          simp [getField, hf]
        rcases ih (fun y hy => hobj y (List.mem_cons_of_mem _ hy)) with h | ⟨ys, hys⟩
        · left
          simp [mapComprehension, hg, h]
        · right
          exact ⟨v :: ys, by simp [mapComprehension, hg, hys]⟩

lemma mapComprehension_ok_mem {g : Json → Except PyError Json} :
    ∀ {xs ys : List Json}, mapComprehension g xs = .ok ys →
      ∀ x ∈ xs, ∃ y, g x = .ok y := by
  intro xs
  induction xs with
  | nil =>
    intro ys h x hx
    simp at hx
  | cons a t ih =>
    intro ys h x hx
    simp only [mapComprehension] at h
    rcases hga : g a with e | y
    · rw [hga] at h
      simp at h
    · rw [hga] at h
      rcases hgt : mapComprehension g t with e | ys'
      · rw [hgt] at h
        simp at h
      · rw [hgt] at h
        rcases List.mem_cons.mp hx with rfl | hxt
        · exact ⟨y, hga⟩
        · exact ih hgt x hxt

/-! ### Claims about the reshaping layer -/

/-- C8: on a raw record containing all expected fields, the reshaping of
`mcp_get_issue` yields the simplified record: the labels list holds each raw
label's `name` field, the assignees list each raw assignee's `login` field,
and the scalar fields (title, body, state, number, the two timestamps, the
comment count from `comments`, the canonical URL from `html_url`) are copied
verbatim. -/
theorem reshaping_fidelity (fields : List (String × Json))
    {titlev bodyv statev numberv createdv updatedv commentsv urlv : Json}
    {lbls asgs labelNames assigneeLogins : List Json}
    (h1 : fields.lookup "title" = some titlev)
    (h2 : fields.lookup "body" = some bodyv)
    (h3 : fields.lookup "state" = some statev)
    (h4 : fields.lookup "number" = some numberv)
    (h5 : fields.lookup "created_at" = some createdv)
    (h6 : fields.lookup "updated_at" = some updatedv)
    (h7 : fields.lookup "labels" = some (.arr lbls))
    (h8 : mapComprehension (fun l => getField l "name") lbls = .ok labelNames)
    (h9 : fields.lookup "assignees" = some (.arr asgs))
    (h10 : mapComprehension (fun l => getField l "login") asgs = .ok assigneeLogins)
    (h11 : fields.lookup "comments" = some commentsv)
    (h12 : fields.lookup "html_url" = some urlv) :
    transform_issue (.obj fields) = .ok (.obj [("title", titlev),
      ("body", bodyv), ("state", statev), ("number", numberv),
      ("created_at", createdv), ("updated_at", updatedv),
      ("labels", .arr labelNames), ("assignees", .arr assigneeLogins),
      ("comments_count", commentsv), ("url", urlv)]) := by
  simp [transform_issue, getField_obj, pyIter, h1, h2, h3, h4, h5, h6, h7, h8,
    h9, h10, h11, h12]

/-- C8 witness: the spec's instance — labels `[{name: bug}]` become
`["bug"]`, assignees `[{login: alice}]` become `["alice"]`, scalars are
copied verbatim. -/
theorem reshaping_fidelity_witness :
    transform_issue (.obj sampleRawIssueFields) = .ok sampleSimplifiedIssue :=
  reshaping_fidelity sampleRawIssueFields rfl rfl rfl rfl rfl rfl rfl rfl rfl
    rfl rfl rfl

/-- C9: when a raw record (whose label/assignee collections, where present,
are well-formed) is missing any expected top-level field, the reshaping
shared by `mcp_get_issue` and `mcp_list_issues` fails with a `KeyError` (the
spec's `SchemaError`); no simplified record is ever produced for it, in
particular `mcp_list_issues` fails on any page containing it. -/
theorem missing_field_fails (fields : List (String × Json)) (k : String)
    (hgood : goodCollections fields = true)
    (hk : k ∈ expectedIssueFields)
    (hmiss : fields.lookup k = none) :
    (∃ bad, transform_issue (.obj fields) = .error (.keyError bad)) ∧
    (∀ issues, Json.obj fields ∈ issues →
      ∀ out, transform_issues issues ≠ .ok out) := by
  have main : ∃ bad, transform_issue (.obj fields) = .error (.keyError bad) := by
    have hg := hgood
    unfold goodCollections at hg
    rw [Bool.and_eq_true] at hg
    obtain ⟨hgl, hga⟩ := hg
    rcases h1 : fields.lookup "title" with _ | titlev
    · exact ⟨"title", by simp [transform_issue, getField_obj, h1]⟩
    rcases h2 : fields.lookup "body" with _ | bodyv
    · exact ⟨"body", by simp [transform_issue, getField_obj, h1, h2]⟩
    rcases h3 : fields.lookup "state" with _ | statev
    · exact ⟨"state", by simp [transform_issue, getField_obj, h1, h2, h3]⟩
    rcases h4 : fields.lookup "number" with _ | numberv
    · exact ⟨"number", by simp [transform_issue, getField_obj, h1, h2, h3, h4]⟩
    rcases h5 : fields.lookup "created_at" with _ | createdv
    · exact ⟨"created_at", by simp [transform_issue, getField_obj, h1, h2, h3, h4, h5]⟩
    rcases h6 : fields.lookup "updated_at" with _ | updatedv
    · exact ⟨"updated_at",
        by simp [transform_issue, getField_obj, h1, h2, h3, h4, h5, h6]⟩
    rcases h7 : fields.lookup "labels" with _ | labelsv
    · exact ⟨"labels",
        by simp [transform_issue, getField_obj, h1, h2, h3, h4, h5, h6, h7]⟩
    have hla : isObjArray labelsv = true := by
      rw [h7] at hgl
      exact hgl
    obtain ⟨lbls, rfl⟩ : ∃ xs, labelsv = .arr xs := by
      cases labelsv <;> simp [isObjArray] at hla
      exact ⟨_, rfl⟩
    have hlobjs : ∀ x ∈ lbls, x.isObj = true := by
      simpa [isObjArray, List.all_eq_true] using hla
    rcases mapComprehension_getField_obj "name" lbls hlobjs with h8 | ⟨labelNames, h8⟩
    · exact ⟨"name",
        by simp [transform_issue, getField_obj, pyIter, h1, h2, h3, h4, h5, h6, h7, h8]⟩
    rcases h9 : fields.lookup "assignees" with _ | assigneesv
    · exact ⟨"assignees",
        by simp [transform_issue, getField_obj, pyIter, h1, h2, h3, h4, h5, h6, h7,
          h8, h9]⟩
    have haa : isObjArray assigneesv = true := by
      rw [h9] at hga
      exact hga
    obtain ⟨asgs, rfl⟩ : ∃ xs, assigneesv = .arr xs := by
      cases assigneesv <;> simp [isObjArray] at haa
      exact ⟨_, rfl⟩
    have haobjs : ∀ x ∈ asgs, x.isObj = true := by
      simpa [isObjArray, List.all_eq_true] using haa
    rcases mapComprehension_getField_obj "login" asgs haobjs with h10 | ⟨assigneeLogins, h10⟩
    · exact ⟨"login",
        by simp [transform_issue, getField_obj, pyIter, h1, h2, h3, h4, h5, h6, h7,
          h8, h9, h10]⟩
    rcases h11 : fields.lookup "comments" with _ | commentsv
    · exact ⟨"comments",
        by simp [transform_issue, getField_obj, pyIter, h1, h2, h3, h4, h5, h6, h7,
          h8, h9, h10, h11]⟩
    rcases h12 : fields.lookup "html_url" with _ | urlv
    · exact ⟨"html_url",
        by simp [transform_issue, getField_obj, pyIter, h1, h2, h3, h4, h5, h6, h7,
          h8, h9, h10, h11, h12]⟩
    exfalso
    simp [expectedIssueFields] at hk
    rcases hk with rfl | rfl | rfl | rfl | rfl | rfl | rfl | rfl | rfl | rfl <;>
      simp_all
  refine ⟨main, ?_⟩
  intro issues hmem out hok
  obtain ⟨bad, hbad⟩ := main
  unfold transform_issues at hok
  obtain ⟨y, hy⟩ := mapComprehension_ok_mem hok (Json.obj fields) hmem
  rw [hbad] at hy
  simp at hy

/-- C9 witness: a record having only a `body` field is missing `title`; the
reshaping fails with a `KeyError` and a listing containing it never
succeeds. -/
theorem missing_field_fails_witness :
    (∃ bad, transform_issue (.obj [("body", Json.str "B")])
        = .error (.keyError bad)) ∧
    (∀ issues, Json.obj [("body", Json.str "B")] ∈ issues →
      ∀ out, transform_issues issues ≠ .ok out) :=
  missing_field_fails [("body", Json.str "B")] "title" rfl (by decide) rfl

/-- C10: whenever the reshaping of `mcp_list_issues` succeeds, the output
list corresponds to the fetched raw records pointwise and in order — the
i-th output is exactly the projection of the i-th raw record — and has the
same length. -/
theorem list_reshaping_elementwise (issues out : List Json)
    (h : transform_issues issues = .ok out) :
    List.Forall₂ (fun raw simplified => transform_issue raw = .ok simplified)
      issues out ∧
    out.length = issues.length := by
  have main : List.Forall₂
      (fun raw simplified => transform_issue raw = .ok simplified) issues out := by
    induction issues generalizing out with
    | nil =>
      unfold transform_issues at h
      simp only [mapComprehension] at h
      injection h with h
      subst h
      exact List.Forall₂.nil
    | cons a t ih =>
      unfold transform_issues at h ih
      simp only [mapComprehension] at h
      rcases ha : transform_issue a with e | y
      · rw [ha] at h
        simp at h
      · rw [ha] at h
        rcases ht : mapComprehension transform_issue t with e | ys
        · rw [ht] at h
          simp at h
        · rw [ht] at h
          injection h with h
          subst h
          exact List.Forall₂.cons ha (ih ys ht)
  exact ⟨main, (List.Forall₂.length_eq main).symm⟩

/-- C10 witness: a one-element page reshapes to the one-element list of its
projection, with equal lengths. -/
theorem list_reshaping_elementwise_witness :
    List.Forall₂ (fun raw simplified => transform_issue raw = .ok simplified)
      [Json.obj sampleRawIssueFields] [sampleSimplifiedIssue] ∧
    ([sampleSimplifiedIssue] : List Json).length
      = ([Json.obj sampleRawIssueFields] : List Json).length :=
  list_reshaping_elementwise [Json.obj sampleRawIssueFields]
    [sampleSimplifiedIssue] rfl
